import Mathlib

/-
Verification of the isotherm fitting / curve synthesis application
(adsorption dashboard frontend).  The source under scrutiny is the React
frontend: its hard-coded demo scenario (input series and fitter output),
its CSV import parser (handleFileUpload) and its CSV results export
(handleDownloadResultsData).  The numerical backend (fitter, synthesizer,
converter) lives behind an HTTP call and is not part of the sources; where
a claim quantifies over it, the relevant component is modelled from the
specification and marked as such.

All numbers are embedded as rationals: the JavaScript literals in the demo
data are exact decimal fractions, so the embedding is exact.
-/

set_option maxRecDepth 8000

section RatReducible

attribute [local semireducible] Rat.ofScientific Rat.mul Rat.add Rat.sub Rat.inv

/-- A single measured point: pressure (MPa) and excess uptake (wt%).
Mirrors the objects `{ pressure, excessUptake }` built by the frontend. -/
structure MeasurementPoint where
  pressure : ℚ
  excessUptake : ℚ
deriving DecidableEq, Repr

/-- One point of a synthesized curve, mirroring the objects of
`DEMO_RESULTS.chartData`: `{ pressure, excessFit, absolute, total,
excessRaw }` with `excessRaw` nullable. -/
structure DerivedCurvePoint where
  pressure : ℚ
  excessFit : ℚ
  absolute : ℚ
  total : ℚ
  excessRaw : Option ℚ
deriving DecidableEq, Repr

/-- The fitted parameter record of `DEMO_RESULTS.parameters`:
`{ vp, rhoA, c, b }`. -/
structure FitParameters where
  vp : ℚ
  rhoA : ℚ
  c : ℚ
  b : ℚ
deriving DecidableEq, Repr

/-- Demo data `DEMO_INPUT_DATA` from App.jsx: the twelve-point demo excess-uptake
series (pre-loaded from te7_test.csv). -/
def DEMO_INPUT_DATA : List MeasurementPoint :=
  [⟨0.1, 0.85⟩, ⟨0.5, 1.62⟩,
   ⟨1.0, 1.95⟩, ⟨2.0, 2.18⟩,
   ⟨3.0, 2.25⟩, ⟨4.0, 2.28⟩,
   ⟨5.0, 2.25⟩, ⟨6.0, 2.2⟩,
   ⟨8.0, 2.1⟩, ⟨10.0, 1.98⟩,
   ⟨12.0, 1.85⟩, ⟨14.0, 1.72⟩]

/-- Demo fit output `DEMO_RESULTS.parameters` from App.jsx. -/
def DEMO_RESULTS_parameters : FitParameters :=
  ⟨0.3449, 0.0976, 0.5369, 8.409⟩

/-- Demo curve `DEMO_RESULTS.chartData` from App.jsx: the recorded synthesized curve
for the demo scenario, 60 grid points.  Field order: pressure, excessFit,
absolute, total, excessRaw. -/
def DEMO_RESULTS_chartData : List DerivedCurvePoint :=
  [⟨0.0, 0.0, 0, 0.0, some 0.85⟩,
   ⟨0.2847, 1.3495, 1.362, 1.3804, none⟩,
   ⟨0.5695, 1.6951, 1.7267, 1.7567, some 1.62⟩,
   ⟨0.8542, 1.8806, 1.9336, 1.9729, none⟩,
   ⟨1.139, 1.9981, 2.0737, 2.1209, some 1.95⟩,
   ⟨1.4237, 2.0783, 2.1775, 2.2317, none⟩,
   ⟨1.7085, 2.1355, 2.2587, 2.3191, none⟩,
   ⟨1.9932, 2.1769, 2.3246, 2.3908, some 2.18⟩,
   ⟨2.278, 2.2071, 2.3796, 2.4512, none⟩,
   ⟨2.5627, 2.229, 2.4265, 2.5031, none⟩,
   ⟨2.8475, 2.2443, 2.4671, 2.5484, none⟩,
   ⟨3.1322, 2.2546, 2.5028, 2.5885, some 2.25⟩,
   ⟨3.4169, 2.2607, 2.5344, 2.6244, none⟩,
   ⟨3.7017, 2.2634, 2.5627, 2.6567, none⟩,
   ⟨3.9864, 2.2633, 2.5883, 2.6861, some 2.28⟩,
   ⟨4.2712, 2.2608, 2.6116, 2.7131, none⟩,
   ⟨4.5559, 2.2563, 2.6328, 2.7379, none⟩,
   ⟨4.8407, 2.25, 2.6524, 2.7609, none⟩,
   ⟨5.1254, 2.2421, 2.6704, 2.7822, some 2.25⟩,
   ⟨5.4102, 2.233, 2.6872, 2.8021, none⟩,
   ⟨5.6949, 2.2227, 2.7028, 2.8208, none⟩,
   ⟨5.9797, 2.2114, 2.7173, 2.8383, some 2.2⟩,
   ⟨6.2644, 2.1991, 2.7309, 2.8549, none⟩,
   ⟨6.5492, 2.1861, 2.7437, 2.8705, none⟩,
   ⟨6.8339, 2.1723, 2.7558, 2.8853, none⟩,
   ⟨7.1186, 2.1579, 2.7672, 2.8993, none⟩,
   ⟨7.4034, 2.1428, 2.778, 2.9127, none⟩,
   ⟨7.6881, 2.1273, 2.7882, 2.9255, none⟩,
   ⟨7.9729, 2.1112, 2.7979, 2.9376, some 2.1⟩,
   ⟨8.2576, 2.0948, 2.8071, 2.9493, none⟩,
   ⟨8.5424, 2.0779, 2.8159, 2.9604, none⟩,
   ⟨8.8271, 2.0607, 2.8243, 2.9711, none⟩,
   ⟨9.1119, 2.0431, 2.8323, 2.9814, none⟩,
   ⟨9.3966, 2.0252, 2.84, 2.9913, none⟩,
   ⟨9.6814, 2.0071, 2.8474, 3.0008, none⟩,
   ⟨9.9661, 1.9887, 2.8545, 3.01, some 1.98⟩,
   ⟨10.2508, 1.9701, 2.8612, 3.0189, none⟩,
   ⟨10.5356, 1.9512, 2.8678, 3.0274, none⟩,
   ⟨10.8203, 1.9322, 2.8741, 3.0357, none⟩,
   ⟨11.1051, 1.913, 2.8801, 3.0437, none⟩,
   ⟨11.3898, 1.8936, 2.8859, 3.0515, none⟩,
   ⟨11.6746, 1.8741, 2.8916, 3.059, none⟩,
   ⟨11.9593, 1.8544, 2.897, 3.0663, some 1.85⟩,
   ⟨12.2441, 1.8346, 2.9023, 3.0734, none⟩,
   ⟨12.5288, 1.8147, 2.9074, 3.0803, none⟩,
   ⟨12.8136, 1.7946, 2.9123, 3.0869, none⟩,
   ⟨13.0983, 1.7745, 2.9171, 3.0935, none⟩,
   ⟨13.3831, 1.7543, 2.9217, 3.0998, none⟩,
   ⟨13.6678, 1.734, 2.9262, 3.1059, none⟩,
   ⟨13.9525, 1.7136, 2.9306, 3.112, some 1.72⟩,
   ⟨14.2373, 1.6932, 2.9348, 3.1178, none⟩,
   ⟨14.522, 1.6727, 2.9389, 3.1235, none⟩,
   ⟨14.8068, 1.6522, 2.9429, 3.1291, none⟩,
   ⟨15.0915, 1.6316, 2.9468, 3.1345, none⟩,
   ⟨15.3763, 1.6109, 2.9506, 3.1398, none⟩,
   ⟨15.661, 1.5902, 2.9543, 3.145, none⟩,
   ⟨15.9458, 1.5695, 2.9579, 3.1501, none⟩,
   ⟨16.2305, 1.5487, 2.9614, 3.1551, none⟩,
   ⟨16.5153, 1.5279, 2.9648, 3.1599, none⟩,
   ⟨16.8, 1.5071, 2.9682, 3.1647, none⟩]

/-- Maximum observed pressure of a dataset (0 for an empty list), as used
by the spec's phrase "the dataset's maximum observed pressure". -/
def maxPressure (points : List MeasurementPoint) : ℚ :=
  points.foldl (fun acc m => max acc m.pressure) 0

/-- C1: for the end-to-end demo scenario (twelve points from (0.1, 0.85)
to (14.0, 1.72)) the recorded fitter output `DEMO_RESULTS.parameters`
matches the spec's approximate values vP ≈ 0.345, rhoA ≈ 0.098,
c ≈ 0.537, b ≈ 8.41 (each within half a unit in the last quoted digit). -/
theorem demo_fit_parameters_match_spec :
    DEMO_INPUT_DATA.length = 12
    ∧ DEMO_INPUT_DATA.head? = some ⟨0.1, 0.85⟩
    ∧ DEMO_INPUT_DATA.getLast? = some ⟨14.0, 1.72⟩
    ∧ |DEMO_RESULTS_parameters.vp - 0.345| ≤ 1/2000
    ∧ |DEMO_RESULTS_parameters.rhoA - 0.098| ≤ 1/2000
    ∧ |DEMO_RESULTS_parameters.c - 0.537| ≤ 1/2000
    ∧ |DEMO_RESULTS_parameters.b - 8.41| ≤ 1/200 := by
  decide

/-- C4: in the demo scenario's synthesized curve the `total` column is
monotonically non-decreasing along the (ascending) pressure grid. -/
theorem demo_total_monotone :
    List.Chain' (· ≤ ·) (DEMO_RESULTS_chartData.map (·.total)) :=
  List.chain'_iff_pairwise.mpr (by decide)

/-- Modelled from the spec: the backend Curve Synthesizer is not under
src/; §4.5 populates `excessRaw` "only at the grid point nearest each
original MeasurementPoint's pressure".  Helper: scan of indexed grid
pressures keeping the pair nearest to `p` (earlier entry wins a tie). -/
def nearestIdxAux (p : ℚ) : List (ℕ × ℚ) → ℕ × ℚ → ℕ × ℚ
  | [], best => best
  | c :: cs, best =>
    if |c.2 - p| < |best.2 - p| then nearestIdxAux p cs c else nearestIdxAux p cs best

/-- Index into `grid` of the pressure nearest to `p` (the earlier index
wins a tie); 0 for an empty grid. -/
def nearestIdx (grid : List ℚ) (p : ℚ) : ℕ :=
  match grid.enum with
  | [] => 0
  | g :: gs => (nearestIdxAux p gs g).1

/-- For each index `i < n`, the second component of the first pair of
`snapped` whose first component is `i` (null when there is none). -/
def snapFromIdx (snapped : List (ℕ × ℚ)) (n : ℕ) : List (Option ℚ) :=
  (List.range n).map fun i =>
    (snapped.find? (fun s => s.1 == i)).map (fun s => s.2)

/-- Modelled from the spec: the nearest-neighbor snap of §4.5.  For each
grid index, the excess uptake of a measurement point whose nearest grid
index is that one (null when no measurement snaps there). -/
def snapExcessRaw (grid : List ℚ) (points : List MeasurementPoint) : List (Option ℚ) :=
  snapFromIdx (points.map fun m => (nearestIdx grid m.pressure, m.excessUptake))
    grid.length

/-- C6: in the demo synthesized curve, the `excessRaw` column is exactly
the nearest-neighbor snap of the twelve demo measurements onto the
pressure grid — non-null precisely at each measurement's nearest grid
point — and the number of non-null entries equals the number of
measurement points. -/
theorem demo_excessRaw_nearest_snap :
    DEMO_RESULTS_chartData.map (·.excessRaw)
      = snapExcessRaw (DEMO_RESULTS_chartData.map (·.pressure)) DEMO_INPUT_DATA
    ∧ (DEMO_RESULTS_chartData.filter (fun r => r.excessRaw.isSome)).length
        = DEMO_INPUT_DATA.length := by
  decide

/-- C9: the demo curve's clamped P = 0 row is not all-zero: it carries
`excessRaw = 0.85` (the 0.1 MPa sample, whose nearest grid point is
index 0) while `excessFit`, `absolute` and `total` are 0 there. -/
theorem demo_zero_row_carries_first_sample :
    DEMO_RESULTS_chartData.head? = some ⟨0, 0, 0, 0, some 0.85⟩
    ∧ nearestIdx (DEMO_RESULTS_chartData.map (·.pressure)) 0.1 = 0
    ∧ (0.85 : ℚ) ≠ 0 := by
  decide

/-- C3 counterexample: the demo grid's last pressure is 16.8 MPa, not the
dataset's maximum observed pressure 14.0 MPa. -/
theorem demo_grid_last_ne_max_pressure :
    (DEMO_RESULTS_chartData.getLast?).map (·.pressure) = some 16.8
    ∧ maxPressure DEMO_INPUT_DATA = 14
    ∧ (16.8 : ℚ) ≠ 14 := by
  decide

/-- C3 amended: the demo grid is strictly ascending, starts at 0, has 60
points, and its last point is 1.2 times the dataset's maximum observed
pressure (a 20% extension beyond the data). -/
theorem demo_grid_structure :
    DEMO_RESULTS_chartData.length = 60
    ∧ (DEMO_RESULTS_chartData.map (·.pressure)).head? = some 0
    ∧ List.Chain' (· < ·) (DEMO_RESULTS_chartData.map (·.pressure))
    ∧ (DEMO_RESULTS_chartData.getLast?).map (·.pressure)
        = some ((1.2 : ℚ) * maxPressure DEMO_INPUT_DATA) := by
  refine ⟨by decide, by decide, List.chain'_iff_pairwise.mpr (by decide), by decide⟩

/-- Modelled from the spec: the backend Excess/Absolute/Total Converter
(§4.2–4.3) is not under src/.  Absolute adsorbed mass
`mA(P) = mA_max · occupancy = rhoA · vP · occupancy(P)`. -/
def mA (rhoA vP occP : ℚ) : ℚ := rhoA * vP * occP

/-- Modelled from the spec: adsorbed-layer volume
`vA(P) = vP · occupancy(P)` (§4.3). -/
def vA (vP occP : ℚ) : ℚ := vP * occP

/-- Modelled from the spec: excess mass
`mE(P) = mA(P) − rhoB(T,P) · vA(P)` (§4.3). -/
def mE (rhoA vP rhoBP occP : ℚ) : ℚ := mA rhoA vP occP - rhoBP * vA vP occP

/-- Modelled from the spec: total mass
`mP(P) = mE(P) + rhoB(T,P) · vP` (§4.3). -/
def mP (rhoA vP rhoBP occP : ℚ) : ℚ := mE rhoA vP rhoBP occP + rhoBP * vP

/-- Modelled from the spec: one grid-point evaluation of the Curve
Synthesizer (§4.5), with the isotherm model's occupancy and the EOS bulk
density abstracted as functions of pressure.  The P = 0 grid point is
clamped to all-zero values regardless of what `occ` and `rhoB` return. -/
def synthPoint (occ rhoB : ℚ → ℚ) (rhoA vP P : ℚ) : DerivedCurvePoint :=
  if P = 0 then ⟨0, 0, 0, 0, none⟩
  else
    ⟨P, mE rhoA vP (rhoB P) (occ P), mA rhoA vP (occ P),
      mP rhoA vP (rhoB P) (occ P), none⟩

/-- C2: the synthesizer's P = 0 grid point has
excessFit = absolute = total = 0 exactly, for every occupancy function,
EOS density function and parameter values — the clamp ignores the model
output — and the demo curve's recorded P = 0 row agrees. -/
theorem synth_zero_pressure_clamped (occ rhoB : ℚ → ℚ) (rhoA vP : ℚ) :
    (synthPoint occ rhoB rhoA vP 0).excessFit = 0
    ∧ (synthPoint occ rhoB rhoA vP 0).absolute = 0
    ∧ (synthPoint occ rhoB rhoA vP 0).total = 0
    ∧ (DEMO_RESULTS_chartData.head?).map
        (fun r => (r.excessFit, r.absolute, r.total)) = some (0, 0, 0) := by
  refine ⟨by simp [synthPoint], by simp [synthPoint], by simp [synthPoint], by decide⟩

/-- C5: at every pressure, under the spec's physical side conditions
(non-negative bulk density, occupancy in [0, 1], non-negative rhoA and
vP), a synthesized point satisfies total ≥ absolute ≥ 0; the demo curve's
recorded points all satisfy the same inequalities. -/
theorem synth_total_ge_absolute_ge_zero (occ rhoB : ℚ → ℚ) (rhoA vP P : ℚ)
    (hB : 0 ≤ rhoB P) (hO0 : 0 ≤ occ P) (hO1 : occ P ≤ 1)
    (hA : 0 ≤ rhoA) (hV : 0 ≤ vP) :
    ((synthPoint occ rhoB rhoA vP P).absolute ≤ (synthPoint occ rhoB rhoA vP P).total
      ∧ 0 ≤ (synthPoint occ rhoB rhoA vP P).absolute)
    ∧ ∀ r ∈ DEMO_RESULTS_chartData, r.absolute ≤ r.total ∧ 0 ≤ r.absolute := by
  refine ⟨?_, by decide⟩
  by_cases hP : P = 0
  · simp [synthPoint, hP]
  · simp only [synthPoint, if_neg hP, mP, mE, mA, vA]
    constructor
    · nlinarith [mul_nonneg hB (mul_nonneg hV (sub_nonneg.mpr hO1))]
    · exact mul_nonneg (mul_nonneg hA hV) hO0

/-- Witness for C5 at concrete parameters (occupancy 1/2, bulk density
1/100, rhoA = 1/10, vP = 1/3, P = 2). -/
theorem synth_total_ge_absolute_ge_zero_witness :
    ((synthPoint (fun _ => 1/2) (fun _ => 1/100) (1/10) (1/3) 2).absolute
        ≤ (synthPoint (fun _ => 1/2) (fun _ => 1/100) (1/10) (1/3) 2).total
      ∧ 0 ≤ (synthPoint (fun _ => 1/2) (fun _ => 1/100) (1/10) (1/3) 2).absolute)
    ∧ ∀ r ∈ DEMO_RESULTS_chartData, r.absolute ≤ r.total ∧ 0 ≤ r.absolute :=
  synth_total_ge_absolute_ge_zero (fun _ => 1/2) (fun _ => 1/100) (1/10) (1/3) 2
    (by decide) (by decide) (by decide) (by decide) (by decide)

/-! CSV results export (`handleDownloadResultsData` in App.jsx) -/

/-- The header row literal of `handleDownloadResultsData`. -/
def resultsCsvHeader : String :=
  "Pressure(MPa),Excess_Raw,Excess_Fit,Absolute_Calc,Total_Capacity"

/-- The `row.excessRaw || ''` template fragment of
`handleDownloadResultsData`: JavaScript's falsy test maps both a null and
an exactly-zero `excessRaw` to the empty string.  `fmt` abstracts
JavaScript's number-to-string conversion. -/
def excessRawCell (fmt : ℚ → String) : Option ℚ → String
  | none => ""
  | some v => if v = 0 then "" else fmt v

/-- One data row of the results CSV:
`pressure,excessRaw||'',excessFit,absolute,total`. -/
def resultsCsvLine (fmt : ℚ → String) (row : DerivedCurvePoint) : String :=
  fmt row.pressure ++ "," ++ excessRawCell fmt row.excessRaw ++ ","
    ++ fmt row.excessFit ++ "," ++ fmt row.absolute ++ "," ++ fmt row.total

/-- The results CSV built by `handleDownloadResultsData`, as its list of
lines (the JavaScript code appends each of these followed by a newline):
the header row, then one row per entry of `results.chartData`. -/
def handleDownloadResultsData (fmt : ℚ → String)
    (chartData : List DerivedCurvePoint) : List String :=
  resultsCsvHeader :: chartData.map (resultsCsvLine fmt)

/-- C7 counterexample: the export's header names the raw-excess column
`Excess_Raw`; it is not the input schema's `ExcessUptake(wt%)` column
followed by the three derived columns. -/
theorem resultsCsv_header_not_input_schema :
    resultsCsvHeader
        ≠ "Pressure(MPa),ExcessUptake(wt%),Excess_Fit,Absolute_Calc,Total_Capacity"
    ∧ resultsCsvHeader
        = "Pressure(MPa)," ++ "Excess_Raw" ++ ",Excess_Fit,Absolute_Calc,Total_Capacity" := by
  refine ⟨by decide, by decide⟩

/-- C7 amended: the results CSV has exactly one header row, whose columns
are Pressure(MPa), Excess_Raw, Excess_Fit, Absolute_Calc, Total_Capacity,
and its data rows are aligned one-to-one, in order, with the grid points
of the chart data. -/
theorem resultsCsv_rows_aligned_to_grid (fmt : ℚ → String)
    (chartData : List DerivedCurvePoint) :
    (handleDownloadResultsData fmt chartData).head? = some resultsCsvHeader
    ∧ (handleDownloadResultsData fmt chartData).length = chartData.length + 1
    ∧ ∀ i : ℕ, (handleDownloadResultsData fmt chartData)[i + 1]?
        = chartData[i]?.map (resultsCsvLine fmt) := by
  refine ⟨rfl, by simp [handleDownloadResultsData], fun i => ?_⟩
  simp [handleDownloadResultsData, List.getElem?_map]

/-- C10: the export writes an empty cell both for a null `excessRaw` and
for an `excessRaw` equal to 0, so the two cases produce identical CSV
rows — a zero raw measurement is indistinguishable from an absent one. -/
theorem excessRaw_zero_exported_as_empty (fmt : ℚ → String) (p ef a t : ℚ) :
    excessRawCell fmt none = ""
    ∧ excessRawCell fmt (some 0) = ""
    ∧ resultsCsvLine fmt ⟨p, ef, a, t, some 0⟩ = resultsCsvLine fmt ⟨p, ef, a, t, none⟩ := by
  refine ⟨rfl, by simp [excessRawCell], by simp [resultsCsvLine, excessRawCell]⟩

/-! CSV import (`handleFileUpload` in App.jsx) -/

/-- Helper for the parseFloat model: consume a maximal run of decimal
digits, returning the accumulated value, the number of digits consumed
and the remaining characters. -/
def takeDigitsAux (acc count : ℕ) : List Char → ℕ × ℕ × List Char
  | [] => (acc, count, [])
  | c :: cs =>
    if c.isDigit then takeDigitsAux (acc * 10 + (c.toNat - 48)) (count + 1) cs
    else (acc, count, c :: cs)

/-- Helper for the parseFloat model: parse `digits[.digits]` after the
optional sign, ignoring trailing junk; none when no digit was consumed
(JavaScript's NaN). -/
def parseUnsigned (cs : List Char) (neg : Bool) : Option ℚ :=
  match takeDigitsAux 0 0 cs with
  | (ip, ni, rest) =>
    match rest with
    | '.' :: r =>
      match takeDigitsAux 0 0 r with
      | (fp, nf, _) =>
        if ni = 0 ∧ nf = 0 then none
        else
          let mag : ℚ := (ip : ℚ) + (fp : ℚ) / (10 : ℚ) ^ nf
          some (if neg then -mag else mag)
    | _ => if ni = 0 then none else some (if neg then -(ip : ℚ) else (ip : ℚ))

/-- JavaScript's `parseFloat` as used by `handleFileUpload`, restricted
to plain decimal literals (optional sign, integer and fraction digits,
leading whitespace skipped, trailing junk ignored); none where JavaScript
returns NaN.  Exponent notation and Infinity are not modelled — no input
considered here uses them. -/
def parseFloatQ (cs : List Char) : Option ℚ :=
  match cs.dropWhile (fun c => c.isWhitespace) with
  | '-' :: r => parseUnsigned r true
  | '+' :: r => parseUnsigned r false
  | r => parseUnsigned r false

/-- Split a character list at every separator accepted by `p`, keeping
empty segments — the behaviour of JavaScript's `String.split` with a
single-character alternation. -/
def splitCharsAux (p : Char → Bool) : List Char → List Char → List (List Char)
  | [], acc => [acc.reverse]
  | c :: cs, acc =>
    if p c then acc.reverse :: splitCharsAux p cs []
    else splitCharsAux p cs (c :: acc)

/-- Entry point of `splitCharsAux` with an empty accumulator. -/
def splitChars (p : Char → Bool) (cs : List Char) : List (List Char) :=
  splitCharsAux p cs []

/-- JavaScript's `String.trim`: strip whitespace from both ends. -/
def jsTrim (cs : List Char) : List Char :=
  ((cs.dropWhile (fun c => c.isWhitespace)).reverse.dropWhile
    (fun c => c.isWhitespace)).reverse

/-- The row-splitting step of `handleFileUpload`:
`event.target.result.trim().split('\n')`. -/
def jsSplitRows (content : String) : List (List Char) :=
  splitChars (fun c => c == '\n') (jsTrim content.data)

/-- The field-splitting step of `handleFileUpload`:
`row.split(/,|;|\t/)`. -/
def splitFields (row : List Char) : List (List Char) :=
  splitChars (fun c => c == ',' || c == ';' || c == '\t') row

/-- One row of `handleFileUpload`: destructure the first two fields
(`const [p, u] = row.split(...)`), parseFloat each, and keep the row only
when neither is NaN (the subsequent `.filter` step). -/
def parseRow (row : List Char) : Option MeasurementPoint :=
  match (splitFields row).get? 0, (splitFields row).get? 1 with
  | some p, some u =>
    match parseFloatQ p, parseFloatQ u with
    | some pv, some uv => some ⟨pv, uv⟩
    | _, _ => none
  | _, _ => none

/-- Upload handler `handleFileUpload` from App.jsx: trim and split the file into rows,
parse each row, and drop every row where pressure or uptake is NaN. -/
def handleFileUpload (content : String) : List MeasurementPoint :=
  ((jsSplitRows content).map parseRow).filterMap id

/-- A three-row upload whose middle row is malformed. -/
def malformedUpload : String := "0.1,0.85\nfoo,bar\n1.0,1.95"

/-- Row accounting for the upload parser: mapping then dropping the
failures equals filtering by parse success, and the surviving count is
the number of parsable rows. -/
theorem uploadRows_account (l : List (List Char)) :
    (l.map parseRow).filterMap id = l.filterMap parseRow
    ∧ (l.filterMap parseRow).length
        = (l.filter (fun r => (parseRow r).isSome)).length := by
  induction l with
  | nil => exact ⟨rfl, rfl⟩
  | cons r rs ih => cases h : parseRow r <;> simp [h, ih.1, ih.2]

/-- C8 counterexample: uploading three rows where the middle row is
malformed yields only the two parsed points — the malformed row is
dropped with no per-row rejection record (the function's output carries
points only). -/
theorem upload_drops_malformed_row_silently :
    (jsSplitRows malformedUpload).length = 3
    ∧ handleFileUpload malformedUpload = [⟨0.1, 0.85⟩, ⟨1, 1.95⟩]
    ∧ (handleFileUpload malformedUpload).length = 2 := by
  decide

/-- C8 amended: the import step keeps exactly the rows whose first two
fields both parse as numbers, in order, and silently discards the rest;
the number of returned points is the number of parsable rows. -/
theorem upload_keeps_exactly_parsable_rows (content : String) :
    handleFileUpload content = (jsSplitRows content).filterMap parseRow
    ∧ (handleFileUpload content).length
        = ((jsSplitRows content).filter (fun r => (parseRow r).isSome)).length := by
  have h := uploadRows_account (jsSplitRows content)
  exact ⟨h.1, by
    rw [show handleFileUpload content = (jsSplitRows content).filterMap parseRow from h.1]
    exact h.2⟩

end RatReducible
